import Mathlib

set_option maxRecDepth 10000

/-!
Shallow embedding of `src/src/Pipeline.cc` (lsst/legacy-pex_harness).

The Pipeline class is the MPI coordinator of a master/worker pipeline.  Each
C++ method is modelled as a pure Lean function from the coordinator state
(the Pipeline object's fields) and an oracle of MPI error codes to
  - the trace of MPI operations the method issues, in order,
  - the remaining oracle, and
  - an outcome: either the method returns (with the updated object state) or
    the process exits with a code (every MPI failure path in the source calls
    MPI_Finalize and exit(1); Pipeline::shutdown calls MPI_Finalize and
    exit(0)).
Stack buffers (`char procCommand[bufferSize]`) are uninitialized in C++; we
model their prior contents as an explicit `junk` parameter and `std::strcpy`
as writing the command bytes plus a NUL terminator over the front of the
buffer, leaving the rest untouched.
-/

namespace PexHarness

/-- An MPI error code as returned by every MPI call; `0` is `MPI_SUCCESS`. -/
abbrev MpiErr := Int

/-- `MPI_SUCCESS` is 0. -/
def MPI_SUCCESS : MpiErr := 0

/-- The observable MPI operations the coordinator can issue, in the order the
source issues them.  `bcastChar count payload` and `bcastInt count v` are
`MPI_Bcast` calls on the slice intercommunicator (of `count` `MPI_CHAR`s,
resp. `count` `MPI_INT`s, as root); `barrier` is `MPI_Barrier` on the slice
intercommunicator; `spawn exec args n` is `MPI_Comm_spawn` of `n` copies of
`exec` with argument vector `args`; `init`, `commRank`, `commSize`, `attrGet`
are the bootstrap calls of `Pipeline::initializeMPI`; `finalize` is
`MPI_Finalize`, which releases all communicators including the control
channel. -/
inductive MpiOp where
  | init : MpiOp
  | commRank : MpiOp
  | commSize : MpiOp
  | attrGet : MpiOp
  | bcastChar : Nat → List Nat → MpiOp
  | bcastInt : Nat → Int → MpiOp
  | barrier : MpiOp
  | spawn : String → List String → Int → MpiOp
  | finalize : MpiOp
  deriving DecidableEq, Repr

/-- `MPI_Bcast` operations on the slice intercommunicator (the broadcasts of
the command protocol). -/
def MpiOp.isBcast : MpiOp → Bool
  | .bcastChar _ _ => true
  | .bcastInt _ _ => true
  | _ => false

/-- The fields of the C++ `Pipeline` object that the modelled methods read or
write: `rank` and `size` of MPI_COMM_WORLD, the discovered `universeSize`,
the derived `nSlices`, the command `bufferSize`, the run identifier `_runId`,
the policy file name `_policyName`, the last MPI error status `mpiError`, and
whether the slice intercommunicator has been established by
`MPI_Comm_spawn` (`sliceIntercomm`). -/
structure Pipeline where
  rank : Int
  size : Int
  universeSize : Int
  nSlices : Int
  bufferSize : Nat
  runId : String
  policyName : String
  mpiError : MpiErr
  sliceIntercomm : Bool
  deriving DecidableEq, Repr

/-- Outcome of running one coordinator method: the method returns normally
with the updated object state, or the process exits with the given code. -/
inductive Outcome where
  | ok : Pipeline → Outcome
  | exited : Nat → Outcome
  deriving DecidableEq, Repr

/-- The result of one modelled method: the MPI operations issued, the
remaining error oracle, and the outcome. -/
abbrev MethodResult := List MpiOp × List MpiErr × Outcome

/-- Pop the next MPI error code from the oracle; an exhausted oracle keeps
answering `MPI_SUCCESS`. -/
def nextErr : List MpiErr → MpiErr × List MpiErr
  | [] => (MPI_SUCCESS, [])
  | e :: rest => (e, rest)

/-- The bytes of an ASCII command-name string literal, as they appear in the
C character buffer (one byte per character). -/
def strBytes (s : String) : List Nat :=
  s.data.map Char.toNat

/-- `std::strcpy(buffer, s)` on a stack buffer whose prior contents were
`buf`: the bytes of `s` and a NUL terminator overwrite the front of the
buffer; the bytes past the terminator keep their prior (indeterminate)
values. -/
def strcpyBuf (buf : List Nat) (s : String) : List Nat :=
  (strBytes s ++ [0]) ++ buf.drop ((strBytes s).length + 1)

/-- The closed command vocabulary broadcast to the slices. -/
inductive Command where
  | CONTINUE : Command
  | SHUTDOWN : Command
  | SYNC : Command
  | PROCESS : Command
  deriving DecidableEq, Repr

/-- The canonical name of each command, exactly the string literal the
source `strcpy`s into the broadcast buffer. -/
def cmdName : Command → String
  | .CONTINUE => "CONTINUE"
  | .SHUTDOWN => "SHUTDOWN"
  | .SYNC => "SYNC"
  | .PROCESS => "PROCESS"

/-- Modelled from the spec: `encode(command, buffer)` writes the command's
canonical name into the fixed buffer and fails with `FramingError` (here
`none`) if the name, terminator included, exceeds the buffer capacity.  The
source has no explicit encode function; its `strcpy` into
`char procCommand[bufferSize]` is the write this models. -/
def encode (c : Command) (buf : List Nat) : Option (List Nat) :=
  if (strBytes (cmdName c)).length + 1 ≤ buf.length then
    some (strcpyBuf buf (cmdName c))
  else
    none

/-- `Pipeline::initializeMPI` (Pipeline.cc lines 73-105): `MPI_Init`,
`MPI_Comm_rank`, `MPI_Comm_size`, `MPI_Attr_get(MPI_UNIVERSE_SIZE)` in
order; on any failure, `MPI_Finalize(); exit(1)`.  On success it stores
`universeSize` from the attribute and sets `nSlices = universeSize - 1`.
`rankVal`, `sizeVal`, `univ` are the values the MPI library writes through
the out-parameters. -/
def initializeMPI (st : Pipeline) (env : List MpiErr)
    (rankVal sizeVal univ : Int) : MethodResult :=
  let (e1, env1) := nextErr env
  let st1 := { st with mpiError := e1 }
  if e1 ≠ MPI_SUCCESS then
    ([.init, .finalize], env1, .exited 1)
  else
    let (e2, env2) := nextErr env1
    let st2 := { st1 with mpiError := e2, rank := rankVal }
    if e2 ≠ MPI_SUCCESS then
      ([.init, .commRank, .finalize], env2, .exited 1)
    else
      let (e3, env3) := nextErr env2
      let st3 := { st2 with mpiError := e3, size := sizeVal }
      if e3 ≠ MPI_SUCCESS then
        ([.init, .commRank, .commSize, .finalize], env3, .exited 1)
      else
        let (e4, env4) := nextErr env3
        let st4 := { st3 with mpiError := e4 }
        if e4 ≠ MPI_SUCCESS then
          ([.init, .commRank, .commSize, .attrGet, .finalize], env4, .exited 1)
        else
          ([.init, .commRank, .commSize, .attrGet], env4,
            .ok { st4 with universeSize := univ, nSlices := univ - 1 })

/-- `Pipeline::configurePipeline` (Pipeline.cc lines 109-112): sets
`bufferSize = 256`. -/
def configurePipeline (st : Pipeline) : Pipeline :=
  { st with bufferSize := 256 }

/-- `Pipeline::startSlices` (Pipeline.cc lines 124-143): spawns `nSlices`
copies of `runSlice.py` with argument vector
`{_policyName, _runId, "-l", lev}` (`lev` is the log threshold rendered as a
string, NULL terminates the C array) via `MPI_Comm_spawn`, which establishes
the slice intercommunicator; on failure, `MPI_Finalize(); exit(1)`. -/
def startSlices (st : Pipeline) (env : List MpiErr) (lev : String) :
    MethodResult :=
  let (e1, env1) := nextErr env
  let st1 := { st with mpiError := e1 }
  if e1 ≠ MPI_SUCCESS then
    ([.spawn "runSlice.py" [st.policyName, st.runId, "-l", lev] st.nSlices,
      .finalize], env1, .exited 1)
  else
    ([.spawn "runSlice.py" [st.policyName, st.runId, "-l", lev] st.nSlices],
      env1, .ok { st1 with sliceIntercomm := true })

/-- `Pipeline::invokeShutdown` (Pipeline.cc lines 147-161): `strcpy`s
"SHUTDOWN" into a `bufferSize` stack buffer with prior contents `junk` and
broadcasts the whole buffer; on failure, `MPI_Finalize(); exit(1)`. -/
def invokeShutdown (st : Pipeline) (env : List MpiErr) (junk : List Nat) :
    MethodResult :=
  let procCommand := strcpyBuf junk "SHUTDOWN"
  let (e1, env1) := nextErr env
  let st1 := { st with mpiError := e1 }
  if e1 ≠ MPI_SUCCESS then
    ([.bcastChar st.bufferSize procCommand, .finalize], env1, .exited 1)
  else
    ([.bcastChar st.bufferSize procCommand], env1, .ok st1)

/-- `Pipeline::invokeContinue` (Pipeline.cc lines 166-179): `strcpy`s
"CONTINUE" into a `bufferSize` stack buffer with prior contents `junk` and
broadcasts the whole buffer; on failure, `MPI_Finalize(); exit(1)`. -/
def invokeContinue (st : Pipeline) (env : List MpiErr) (junk : List Nat) :
    MethodResult :=
  let procCommand := strcpyBuf junk "CONTINUE"
  let (e1, env1) := nextErr env
  let st1 := { st with mpiError := e1 }
  if e1 ≠ MPI_SUCCESS then
    ([.bcastChar st.bufferSize procCommand, .finalize], env1, .exited 1)
  else
    ([.bcastChar st.bufferSize procCommand], env1, .ok st1)

/-- `Pipeline::invokeSyncSlices` (Pipeline.cc lines 183-211): `strcpy`s
"SYNC" into a `bufferSize` stack buffer with prior contents `junk`,
broadcasts the whole buffer, then calls `MPI_Barrier`; on either failure,
`MPI_Finalize(); exit(1)`.  (The interleaved `pipelineLog.log` calls are
logging glue, out of scope, and issue no MPI operations.) -/
def invokeSyncSlices (st : Pipeline) (env : List MpiErr) (junk : List Nat) :
    MethodResult :=
  let procCommand := strcpyBuf junk "SYNC"
  let (e1, env1) := nextErr env
  let st1 := { st with mpiError := e1 }
  if e1 ≠ MPI_SUCCESS then
    ([.bcastChar st.bufferSize procCommand, .finalize], env1, .exited 1)
  else
    let (e2, env2) := nextErr env1
    let st2 := { st1 with mpiError := e2 }
    if e2 ≠ MPI_SUCCESS then
      ([.bcastChar st.bufferSize procCommand, .barrier, .finalize], env2,
        .exited 1)
    else
      ([.bcastChar st.bufferSize procCommand, .barrier], env2, .ok st2)

/-- `Pipeline::invokeProcess(iStage)` (Pipeline.cc lines 215-245): `strcpy`s
"PROCESS" into a `bufferSize` stack buffer with prior contents `junk`,
broadcasts the whole buffer, broadcasts `iStage` as one `MPI_INT`, then
calls `MPI_Barrier`; on any failure, `MPI_Finalize(); exit(1)`.  (The local
`char processCommand[nSlices][bufferSize]` array filled at lines 217-220 is
dead code: it is never read and never broadcast, so it issues no MPI
operation and is not modelled.) -/
def invokeProcess (st : Pipeline) (env : List MpiErr) (junk : List Nat)
    (iStage : Int) : MethodResult :=
  let procCommand := strcpyBuf junk "PROCESS"
  let (e1, env1) := nextErr env
  let st1 := { st with mpiError := e1 }
  if e1 ≠ MPI_SUCCESS then
    ([.bcastChar st.bufferSize procCommand, .finalize], env1, .exited 1)
  else
    let (e2, env2) := nextErr env1
    let st2 := { st1 with mpiError := e2 }
    if e2 ≠ MPI_SUCCESS then
      ([.bcastChar st.bufferSize procCommand, .bcastInt 1 iStage, .finalize],
        env2, .exited 1)
    else
      let (e3, env3) := nextErr env2
      let st3 := { st2 with mpiError := e3 }
      if e3 ≠ MPI_SUCCESS then
        ([.bcastChar st.bufferSize procCommand, .bcastInt 1 iStage, .barrier,
          .finalize], env3, .exited 1)
      else
        ([.bcastChar st.bufferSize procCommand, .bcastInt 1 iStage, .barrier],
          env3, .ok st3)

/-- `Pipeline::shutdown` (Pipeline.cc lines 249-254): `MPI_Finalize();
exit(0)`.  It never returns. -/
def shutdown (st : Pipeline) (env : List MpiErr) : MethodResult :=
  ([.finalize], env, .exited 0)

/-- A coordinator method call, for sequencing whole-program behaviour. -/
abbrev Call := Pipeline → List MpiErr → MethodResult

/-- Run a sequence of coordinator method calls on the same process: each
call's outcome feeds the next; once a call exits the process, the remaining
calls never execute and contribute no operations. -/
def runCalls (st : Pipeline) (env : List MpiErr) : List Call → MethodResult
  | [] => ([], env, .ok st)
  | f :: fs =>
    match f st env with
    | (ops, env1, .ok st1) =>
      match runCalls st1 env1 fs with
      | (ops2, env2, out) => (ops ++ ops2, env2, out)
    | (ops, env1, .exited c) => (ops, env1, .exited c)

/-- The spec's `shutdownFleet()` as the source realises it: broadcast
SHUTDOWN (`Pipeline::invokeShutdown`), then release the channel and
terminate the coordinator (`Pipeline::shutdown`). -/
def shutdownFleet (junk : List Nat) : List Call :=
  [fun st env => invokeShutdown st env junk,
   fun st env => shutdown st env]

/-- A concrete coordinator state for closed-form witnesses: the state after
a successful bootstrap with universe size 4 (hence 3 slices) and
configuration (`bufferSize = 256`). -/
def samplePipeline : Pipeline :=
  { rank := 0, size := 1, universeSize := 4, nSlices := 3, bufferSize := 256,
    runId := "run1", policyName := "policy.paf", mpiError := 0,
    sliceIntercomm := true }

/-- A concrete prior content of the 256-byte command buffer. -/
def sampleJunk : List Nat :=
  List.replicate 256 0

/-- Every error code in the oracle is `MPI_SUCCESS`. -/
def allSuccess (env : List MpiErr) : Prop :=
  ∀ e ∈ env, e = MPI_SUCCESS

theorem allSuccess_nil : allSuccess [] := by
  intro e he
  cases he

theorem allSuccess_tail {e : MpiErr} {env : List MpiErr}
    (h : allSuccess (e :: env)) : allSuccess env := by
  intro x hx
  exact h x (List.mem_cons_of_mem _ hx)

/-- On a length-adequate buffer, `strcpy` does not change the buffer's
length (the write stays inside the buffer). -/
theorem strcpyBuf_length (junk : List Nat) (s : String)
    (h : (strBytes s).length + 1 ≤ junk.length) :
    (strcpyBuf junk s).length = junk.length := by
  simp [strcpyBuf, List.length_drop]
  omega

/-- The first `name length + 1` bytes of the buffer after `strcpy` are the
name's bytes followed by the NUL terminator. -/
theorem strcpyBuf_take (junk : List Nat) (s : String) :
    (strcpyBuf junk s).take ((strBytes s).length + 1) = strBytes s ++ [0] := by
  have h : (strBytes s ++ [0]).length = (strBytes s).length + 1 := by simp
  rw [strcpyBuf, ← h, List.take_left]

/-- The bytes past the NUL terminator keep the buffer's prior contents. -/
theorem strcpyBuf_drop (junk : List Nat) (s : String) :
    (strcpyBuf junk s).drop ((strBytes s).length + 1) =
      junk.drop ((strBytes s).length + 1) := by
  have h : (strBytes s ++ [0]).length = (strBytes s).length + 1 := by simp
  rw [strcpyBuf, ← h, List.drop_left]

/-- C1: for every stage index `iStage`, `Pipeline::invokeProcess` performs
exactly three collective operations on the slice intercommunicator, in this
order: one broadcast of the PROCESS command buffer, one broadcast of
`iStage` as a single `MPI_INT`, then one barrier; it returns (outcome `ok`)
only after the barrier, and the trace contains no other operation. -/
theorem invokeProcess_three_collectives (st : Pipeline) (env : List MpiErr)
    (junk : List Nat) (iStage : Int) (h : allSuccess env) :
    invokeProcess st env junk iStage =
      ([.bcastChar st.bufferSize (strcpyBuf junk "PROCESS"),
        .bcastInt 1 iStage, .barrier], env.drop 3,
        .ok { st with mpiError := MPI_SUCCESS }) := by
  cases env with
  | nil => rfl
  | cons e1 t1 =>
    obtain rfl : e1 = MPI_SUCCESS := h _ (List.mem_cons_self _ _)
    cases t1 with
    | nil => rfl
    | cons e2 t2 =>
      obtain rfl : e2 = MPI_SUCCESS :=
        h _ (List.mem_cons_of_mem _ (List.mem_cons_self _ _))
      cases t2 with
      | nil => rfl
      | cons e3 t3 =>
        obtain rfl : e3 = MPI_SUCCESS :=
          h _ (List.mem_cons_of_mem _
            (List.mem_cons_of_mem _ (List.mem_cons_self _ _)))
        rfl

/-- C1 witness: the theorem applied at a concrete state, an exhausted error
oracle (every call succeeds), a zeroed buffer, and stage index 2. -/
theorem invokeProcess_three_collectives_witness :
    invokeProcess samplePipeline [] sampleJunk 2 =
      ([.bcastChar samplePipeline.bufferSize (strcpyBuf sampleJunk "PROCESS"),
        .bcastInt 1 2, .barrier], [],
        .ok { samplePipeline with mpiError := MPI_SUCCESS }) :=
  invokeProcess_three_collectives samplePipeline [] sampleJunk 2 allSuccess_nil

/-- C3: `Pipeline::invokeSyncSlices` performs exactly two collective
operations, in order: one broadcast of the SYNC command buffer, then one
barrier, and nothing else. -/
theorem invokeSyncSlices_two_collectives (st : Pipeline) (env : List MpiErr)
    (junk : List Nat) (h : allSuccess env) :
    invokeSyncSlices st env junk =
      ([.bcastChar st.bufferSize (strcpyBuf junk "SYNC"), .barrier],
        env.drop 2, .ok { st with mpiError := MPI_SUCCESS }) := by
  cases env with
  | nil => rfl
  | cons e1 t1 =>
    obtain rfl : e1 = MPI_SUCCESS := h _ (List.mem_cons_self _ _)
    cases t1 with
    | nil => rfl
    | cons e2 t2 =>
      obtain rfl : e2 = MPI_SUCCESS :=
        h _ (List.mem_cons_of_mem _ (List.mem_cons_self _ _))
      rfl

/-- C3 witness: the theorem applied at a concrete state and an exhausted
error oracle. -/
theorem invokeSyncSlices_two_collectives_witness :
    invokeSyncSlices samplePipeline [] sampleJunk =
      ([.bcastChar samplePipeline.bufferSize (strcpyBuf sampleJunk "SYNC"),
        .barrier], [], .ok { samplePipeline with mpiError := MPI_SUCCESS }) :=
  invokeSyncSlices_two_collectives samplePipeline [] sampleJunk allSuccess_nil

/-- C4: `Pipeline::invokeContinue` performs exactly one collective
operation: a single broadcast of the CONTINUE command buffer; no barrier
follows, no other channel operation is issued, and the only state change is
the recorded MPI error status of that broadcast. -/
theorem invokeContinue_one_collective (st : Pipeline) (env : List MpiErr)
    (junk : List Nat) (h : allSuccess env) :
    invokeContinue st env junk =
      ([.bcastChar st.bufferSize (strcpyBuf junk "CONTINUE")],
        env.drop 1, .ok { st with mpiError := MPI_SUCCESS }) := by
  cases env with
  | nil => rfl
  | cons e1 t1 =>
    obtain rfl : e1 = MPI_SUCCESS := h _ (List.mem_cons_self _ _)
    rfl

/-- C4 witness: the theorem applied at a concrete state and an exhausted
error oracle. -/
theorem invokeContinue_one_collective_witness :
    invokeContinue samplePipeline [] sampleJunk =
      ([.bcastChar samplePipeline.bufferSize (strcpyBuf sampleJunk "CONTINUE")],
        [], .ok { samplePipeline with mpiError := MPI_SUCCESS }) :=
  invokeContinue_one_collective samplePipeline [] sampleJunk allSuccess_nil

/-- Success-path characterization of `Pipeline::initializeMPI`: when every
MPI call succeeds it returns with `universeSize` set from the
`MPI_UNIVERSE_SIZE` attribute and `nSlices = universeSize - 1`. -/
theorem initializeMPI_success (st : Pipeline) (env : List MpiErr)
    (rankVal sizeVal univ : Int) (h : allSuccess env) :
    initializeMPI st env rankVal sizeVal univ =
      ([.init, .commRank, .commSize, .attrGet], env.drop 4,
        .ok { st with
                mpiError := MPI_SUCCESS
                rank := rankVal
                size := sizeVal
                universeSize := univ
                nSlices := univ - 1 }) := by
  cases env with
  | nil => rfl
  | cons e1 t1 =>
    obtain rfl : e1 = MPI_SUCCESS := h _ (List.mem_cons_self _ _)
    cases t1 with
    | nil => rfl
    | cons e2 t2 =>
      obtain rfl : e2 = MPI_SUCCESS :=
        h _ (List.mem_cons_of_mem _ (List.mem_cons_self _ _))
      cases t2 with
      | nil => rfl
      | cons e3 t3 =>
        obtain rfl : e3 = MPI_SUCCESS :=
          h _ (List.mem_cons_of_mem _
            (List.mem_cons_of_mem _ (List.mem_cons_self _ _)))
        cases t3 with
        | nil => rfl
        | cons e4 t4 =>
          obtain rfl : e4 = MPI_SUCCESS :=
            h _ (List.mem_cons_of_mem _ (List.mem_cons_of_mem _
              (List.mem_cons_of_mem _ (List.mem_cons_self _ _))))
          rfl

/-- C2: whenever capacity discovery (`Pipeline::initializeMPI`) returns, the
computed fleet size satisfies `nSlices = universeSize - 1`, and if the
reported universe size is at least 1 then `nSlices >= 0`. -/
theorem fleetSize_eq_universeSize_sub_one (st st' : Pipeline)
    (env : List MpiErr) (rankVal sizeVal univ : Int) (h : allSuccess env)
    (hok : (initializeMPI st env rankVal sizeVal univ).2.2 = .ok st') :
    st'.nSlices = st'.universeSize - 1 ∧
      (1 ≤ st'.universeSize → 0 ≤ st'.nSlices) := by
  rw [initializeMPI_success st env rankVal sizeVal univ h] at hok
  have h2 : ({ st with
                 mpiError := MPI_SUCCESS
                 rank := rankVal
                 size := sizeVal
                 universeSize := univ
                 nSlices := univ - 1 } : Pipeline) = st' := by
    injection hok
  subst h2
  refine ⟨rfl, fun h1 => ?_⟩
  have h1' : (1 : Int) ≤ univ := h1
  show (0 : Int) ≤ univ - 1
  omega

/-- C2 witness: the theorem applied at a concrete state, an exhausted error
oracle, and a discovered universe size of 4 (so the fleet size is 3). -/
theorem fleetSize_eq_universeSize_sub_one_witness :
    allSuccess [] ∧
    (samplePipeline.nSlices = samplePipeline.universeSize - 1 ∧
      (1 ≤ samplePipeline.universeSize → 0 ≤ samplePipeline.nSlices)) :=
  ⟨allSuccess_nil,
   fleetSize_eq_universeSize_sub_one samplePipeline samplePipeline
     [] 0 1 4 allSuccess_nil rfl⟩

/-- C6: `Pipeline::startSlices` issues exactly one `MPI_Comm_spawn`,
launching `nSlices` copies of the worker entry point `runSlice.py` with
argument vector `{_policyName, _runId, "-l", <log threshold>}`, and on
success the slice intercommunicator is established; nothing else is
issued. -/
theorem startSlices_spawns_nSlices (st : Pipeline) (env : List MpiErr)
    (lev : String) (h : allSuccess env) :
    startSlices st env lev =
      ([.spawn "runSlice.py" [st.policyName, st.runId, "-l", lev] st.nSlices],
        env.drop 1,
        .ok { st with mpiError := MPI_SUCCESS, sliceIntercomm := true }) := by
  cases env with
  | nil => rfl
  | cons e1 t1 =>
    obtain rfl : e1 = MPI_SUCCESS := h _ (List.mem_cons_self _ _)
    rfl

/-- C6 witness: the theorem applied at a concrete state and an exhausted
error oracle. -/
theorem startSlices_spawns_nSlices_witness :
    startSlices samplePipeline [] "10" =
      ([.spawn "runSlice.py"
          [samplePipeline.policyName, samplePipeline.runId, "-l", "10"]
          samplePipeline.nSlices], [],
        .ok { samplePipeline with
                mpiError := MPI_SUCCESS
                sliceIntercomm := true }) :=
  startSlices_spawns_nSlices samplePipeline [] "10" allSuccess_nil

/-- If `Pipeline::invokeShutdown` returns, the object state is the entry
state with only `mpiError` updated (to `MPI_SUCCESS`, the status of the
succeeded broadcast). -/
theorem invokeShutdown_ok_state (st st' : Pipeline) (env : List MpiErr)
    (junk : List Nat)
    (h : (invokeShutdown st env junk).2.2 = .ok st') :
    st' = { st with mpiError := MPI_SUCCESS } := by
  rcases env with _ | ⟨e1, t1⟩
  · exact (Outcome.ok.inj h).symm
  · by_cases he1 : e1 = MPI_SUCCESS
    · subst he1
      exact (Outcome.ok.inj h).symm
    · simp only [invokeShutdown, nextErr] at h
      rw [if_pos he1] at h
      cases h

/-- If `Pipeline::invokeContinue` returns, the object state is the entry
state with only `mpiError` updated. -/
theorem invokeContinue_ok_state (st st' : Pipeline) (env : List MpiErr)
    (junk : List Nat)
    (h : (invokeContinue st env junk).2.2 = .ok st') :
    st' = { st with mpiError := MPI_SUCCESS } := by
  rcases env with _ | ⟨e1, t1⟩
  · exact (Outcome.ok.inj h).symm
  · by_cases he1 : e1 = MPI_SUCCESS
    · subst he1
      exact (Outcome.ok.inj h).symm
    · simp only [invokeContinue, nextErr] at h
      rw [if_pos he1] at h
      cases h

/-- If `Pipeline::invokeSyncSlices` returns, the object state is the entry
state with only `mpiError` updated. -/
theorem invokeSyncSlices_ok_state (st st' : Pipeline) (env : List MpiErr)
    (junk : List Nat)
    (h : (invokeSyncSlices st env junk).2.2 = .ok st') :
    st' = { st with mpiError := MPI_SUCCESS } := by
  rcases env with _ | ⟨e1, t1⟩
  · exact (Outcome.ok.inj h).symm
  · by_cases he1 : e1 = MPI_SUCCESS
    · subst he1
      rcases t1 with _ | ⟨e2, t2⟩
      · exact (Outcome.ok.inj h).symm
      · by_cases he2 : e2 = MPI_SUCCESS
        · subst he2
          exact (Outcome.ok.inj h).symm
        · simp only [invokeSyncSlices, nextErr] at h
          rw [if_neg (by simp [MPI_SUCCESS])] at h
          rw [if_pos he2] at h
          cases h
    · simp only [invokeSyncSlices, nextErr] at h
      rw [if_pos he1] at h
      cases h

/-- If `Pipeline::invokeProcess` returns, the object state is the entry
state with only `mpiError` updated. -/
theorem invokeProcess_ok_state (st st' : Pipeline) (env : List MpiErr)
    (junk : List Nat) (iStage : Int)
    (h : (invokeProcess st env junk iStage).2.2 = .ok st') :
    st' = { st with mpiError := MPI_SUCCESS } := by
  rcases env with _ | ⟨e1, t1⟩
  · exact (Outcome.ok.inj h).symm
  · by_cases he1 : e1 = MPI_SUCCESS
    · subst he1
      rcases t1 with _ | ⟨e2, t2⟩
      · exact (Outcome.ok.inj h).symm
      · by_cases he2 : e2 = MPI_SUCCESS
        · subst he2
          rcases t2 with _ | ⟨e3, t3⟩
          · exact (Outcome.ok.inj h).symm
          · by_cases he3 : e3 = MPI_SUCCESS
            · subst he3
              exact (Outcome.ok.inj h).symm
            · simp only [invokeProcess, nextErr] at h
              rw [if_neg (by simp [MPI_SUCCESS])] at h
              rw [if_neg (by simp [MPI_SUCCESS])] at h
              rw [if_pos he3] at h
              cases h
        · simp only [invokeProcess, nextErr] at h
          rw [if_neg (by simp [MPI_SUCCESS])] at h
          rw [if_pos he2] at h
          cases h
    · simp only [invokeProcess, nextErr] at h
      rw [if_pos he1] at h
      cases h

/-- C10: whenever any of `invokeProcess`, `invokeSyncSlices`,
`invokeContinue`, `invokeShutdown` returns (its success path), the resulting
object state equals the entry state with at most the last MPI error status
`mpiError` changed: `universeSize`, `nSlices`, `bufferSize`, the run
identifier, the policy name (and every other field) are unchanged. -/
theorem invoke_methods_frame (st st' : Pipeline) (env : List MpiErr)
    (junk : List Nat) (iStage : Int) :
    ((invokeProcess st env junk iStage).2.2 = .ok st' →
      st' = { st with mpiError := st'.mpiError }) ∧
    ((invokeSyncSlices st env junk).2.2 = .ok st' →
      st' = { st with mpiError := st'.mpiError }) ∧
    ((invokeContinue st env junk).2.2 = .ok st' →
      st' = { st with mpiError := st'.mpiError }) ∧
    ((invokeShutdown st env junk).2.2 = .ok st' →
      st' = { st with mpiError := st'.mpiError }) := by
  refine ⟨fun h => ?_, fun h => ?_, fun h => ?_, fun h => ?_⟩
  · rw [invokeProcess_ok_state st st' env junk iStage h]
  · rw [invokeSyncSlices_ok_state st st' env junk h]
  · rw [invokeContinue_ok_state st st' env junk h]
  · rw [invokeShutdown_ok_state st st' env junk h]

/-- C10 witness: the theorem applied at a concrete state and an exhausted
error oracle; each success-path hypothesis is discharged by computation. -/
theorem invoke_methods_frame_witness :
    ({ samplePipeline with mpiError := MPI_SUCCESS } : Pipeline) =
      { samplePipeline with
          mpiError :=
            ({ samplePipeline with mpiError := MPI_SUCCESS } : Pipeline).mpiError } :=
  (invoke_methods_frame samplePipeline
    { samplePipeline with mpiError := MPI_SUCCESS } [] sampleJunk 2).1 rfl

/-- If `Pipeline::initializeMPI` exits the process, the exit code is 1 and
the last MPI operation issued is `MPI_Finalize`. -/
theorem initializeMPI_exit (st : Pipeline) (env : List MpiErr)
    (rankVal sizeVal univ : Int) (c : Nat)
    (h : (initializeMPI st env rankVal sizeVal univ).2.2 = .exited c) :
    c = 1 ∧
      (initializeMPI st env rankVal sizeVal univ).1.getLast? =
        some .finalize := by
  rcases env with _ | ⟨e1, t1⟩
  · cases h
  · by_cases he1 : e1 = MPI_SUCCESS
    · subst he1
      rcases t1 with _ | ⟨e2, t2⟩
      · cases h
      · by_cases he2 : e2 = MPI_SUCCESS
        · subst he2
          rcases t2 with _ | ⟨e3, t3⟩
          · cases h
          · by_cases he3 : e3 = MPI_SUCCESS
            · subst he3
              rcases t3 with _ | ⟨e4, t4⟩
              · cases h
              · by_cases he4 : e4 = MPI_SUCCESS
                · subst he4
                  cases h
                · simp only [initializeMPI, nextErr] at h ⊢
                  rw [if_neg (by simp [MPI_SUCCESS])] at h ⊢
                  rw [if_neg (by simp [MPI_SUCCESS])] at h ⊢
                  rw [if_neg (by simp [MPI_SUCCESS])] at h ⊢
                  rw [if_pos he4] at h ⊢
                  exact ⟨(Outcome.exited.inj h).symm, rfl⟩
            · simp only [initializeMPI, nextErr] at h ⊢
              rw [if_neg (by simp [MPI_SUCCESS])] at h ⊢
              rw [if_neg (by simp [MPI_SUCCESS])] at h ⊢
              rw [if_pos he3] at h ⊢
              exact ⟨(Outcome.exited.inj h).symm, rfl⟩
        · simp only [initializeMPI, nextErr] at h ⊢
          rw [if_neg (by simp [MPI_SUCCESS])] at h ⊢
          rw [if_pos he2] at h ⊢
          exact ⟨(Outcome.exited.inj h).symm, rfl⟩
    · simp only [initializeMPI, nextErr] at h ⊢
      rw [if_pos he1] at h ⊢
      exact ⟨(Outcome.exited.inj h).symm, rfl⟩

/-- `Pipeline::initializeMPI` never broadcasts anything: its trace contains
no `MPI_Bcast` operation, whichever calls fail. -/
theorem initializeMPI_no_bcast (st : Pipeline) (env : List MpiErr)
    (rankVal sizeVal univ : Int) :
    ∀ op ∈ (initializeMPI st env rankVal sizeVal univ).1,
      op.isBcast = false := by
  rcases env with _ | ⟨e1, t1⟩
  · simp [initializeMPI, nextErr, MpiOp.isBcast, MPI_SUCCESS]
  · by_cases he1 : e1 = MPI_SUCCESS
    · subst he1
      rcases t1 with _ | ⟨e2, t2⟩
      · simp [initializeMPI, nextErr, MpiOp.isBcast, MPI_SUCCESS]
      · by_cases he2 : e2 = MPI_SUCCESS
        · subst he2
          rcases t2 with _ | ⟨e3, t3⟩
          · simp [initializeMPI, nextErr, MpiOp.isBcast, MPI_SUCCESS]
          · by_cases he3 : e3 = MPI_SUCCESS
            · subst he3
              rcases t3 with _ | ⟨e4, t4⟩
              · simp [initializeMPI, nextErr, MpiOp.isBcast, MPI_SUCCESS]
              · by_cases he4 : e4 = MPI_SUCCESS
                · subst he4
                  simp [initializeMPI, nextErr, MpiOp.isBcast, MPI_SUCCESS]
                · simp only [initializeMPI, nextErr]
                  rw [if_neg (by simp [MPI_SUCCESS])]
                  rw [if_neg (by simp [MPI_SUCCESS])]
                  rw [if_neg (by simp [MPI_SUCCESS])]
                  rw [if_pos he4]
                  simp [MpiOp.isBcast]
            · simp only [initializeMPI, nextErr]
              rw [if_neg (by simp [MPI_SUCCESS])]
              rw [if_neg (by simp [MPI_SUCCESS])]
              rw [if_pos he3]
              simp [MpiOp.isBcast]
        · simp only [initializeMPI, nextErr]
          rw [if_neg (by simp [MPI_SUCCESS])]
          rw [if_pos he2]
          simp [MpiOp.isBcast]
    · simp only [initializeMPI, nextErr]
      rw [if_pos he1]
      simp [MpiOp.isBcast]

/-- If `Pipeline::startSlices` exits the process, the exit code is 1 and the
last MPI operation issued is `MPI_Finalize`. -/
theorem startSlices_exit (st : Pipeline) (env : List MpiErr) (lev : String)
    (c : Nat) (h : (startSlices st env lev).2.2 = .exited c) :
    c = 1 ∧ (startSlices st env lev).1.getLast? = some .finalize := by
  rcases env with _ | ⟨e1, t1⟩
  · cases h
  · by_cases he1 : e1 = MPI_SUCCESS
    · subst he1
      cases h
    · simp only [startSlices, nextErr] at h ⊢
      rw [if_pos he1] at h ⊢
      exact ⟨(Outcome.exited.inj h).symm, rfl⟩

/-- If `Pipeline::invokeShutdown` exits the process, the exit code is 1 and
the last MPI operation issued is `MPI_Finalize`. -/
theorem invokeShutdown_exit (st : Pipeline) (env : List MpiErr)
    (junk : List Nat) (c : Nat)
    (h : (invokeShutdown st env junk).2.2 = .exited c) :
    c = 1 ∧ (invokeShutdown st env junk).1.getLast? = some .finalize := by
  rcases env with _ | ⟨e1, t1⟩
  · cases h
  · by_cases he1 : e1 = MPI_SUCCESS
    · subst he1
      cases h
    · simp only [invokeShutdown, nextErr] at h ⊢
      rw [if_pos he1] at h ⊢
      exact ⟨(Outcome.exited.inj h).symm, rfl⟩

/-- If `Pipeline::invokeContinue` exits the process, the exit code is 1 and
the last MPI operation issued is `MPI_Finalize`. -/
theorem invokeContinue_exit (st : Pipeline) (env : List MpiErr)
    (junk : List Nat) (c : Nat)
    (h : (invokeContinue st env junk).2.2 = .exited c) :
    c = 1 ∧ (invokeContinue st env junk).1.getLast? = some .finalize := by
  rcases env with _ | ⟨e1, t1⟩
  · cases h
  · by_cases he1 : e1 = MPI_SUCCESS
    · subst he1
      cases h
    · simp only [invokeContinue, nextErr] at h ⊢
      rw [if_pos he1] at h ⊢
      exact ⟨(Outcome.exited.inj h).symm, rfl⟩

/-- If `Pipeline::invokeSyncSlices` exits the process, the exit code is 1
and the last MPI operation issued is `MPI_Finalize`. -/
theorem invokeSyncSlices_exit (st : Pipeline) (env : List MpiErr)
    (junk : List Nat) (c : Nat)
    (h : (invokeSyncSlices st env junk).2.2 = .exited c) :
    c = 1 ∧ (invokeSyncSlices st env junk).1.getLast? = some .finalize := by
  rcases env with _ | ⟨e1, t1⟩
  · cases h
  · by_cases he1 : e1 = MPI_SUCCESS
    · subst he1
      rcases t1 with _ | ⟨e2, t2⟩
      · cases h
      · by_cases he2 : e2 = MPI_SUCCESS
        · subst he2
          cases h
        · simp only [invokeSyncSlices, nextErr] at h ⊢
          rw [if_neg (by simp [MPI_SUCCESS])] at h ⊢
          rw [if_pos he2] at h ⊢
          exact ⟨(Outcome.exited.inj h).symm, rfl⟩
    · simp only [invokeSyncSlices, nextErr] at h ⊢
      rw [if_pos he1] at h ⊢
      exact ⟨(Outcome.exited.inj h).symm, rfl⟩

/-- If `Pipeline::invokeProcess` exits the process, the exit code is 1 and
the last MPI operation issued is `MPI_Finalize`. -/
theorem invokeProcess_exit (st : Pipeline) (env : List MpiErr)
    (junk : List Nat) (iStage : Int) (c : Nat)
    (h : (invokeProcess st env junk iStage).2.2 = .exited c) :
    c = 1 ∧
      (invokeProcess st env junk iStage).1.getLast? = some .finalize := by
  rcases env with _ | ⟨e1, t1⟩
  · cases h
  · by_cases he1 : e1 = MPI_SUCCESS
    · subst he1
      rcases t1 with _ | ⟨e2, t2⟩
      · cases h
      · by_cases he2 : e2 = MPI_SUCCESS
        · subst he2
          rcases t2 with _ | ⟨e3, t3⟩
          · cases h
          · by_cases he3 : e3 = MPI_SUCCESS
            · subst he3
              cases h
            · simp only [invokeProcess, nextErr] at h ⊢
              rw [if_neg (by simp [MPI_SUCCESS])] at h ⊢
              rw [if_neg (by simp [MPI_SUCCESS])] at h ⊢
              rw [if_pos he3] at h ⊢
              exact ⟨(Outcome.exited.inj h).symm, rfl⟩
        · simp only [invokeProcess, nextErr] at h ⊢
          rw [if_neg (by simp [MPI_SUCCESS])] at h ⊢
          rw [if_pos he2] at h ⊢
          exact ⟨(Outcome.exited.inj h).symm, rfl⟩
    · simp only [invokeProcess, nextErr] at h ⊢
      rw [if_pos he1] at h ⊢
      exact ⟨(Outcome.exited.inj h).symm, rfl⟩

/-- C5: whenever a bootstrap call (`initializeMPI`, `startSlices`) or a
collective operation (`invokeShutdown`, `invokeContinue`,
`invokeSyncSlices`, `invokeProcess`) fails and the method exits the process,
the exit code is 1 and the very last MPI operation issued is `MPI_Finalize`
(the channel is released and nothing — in particular no broadcast — follows
it); `initializeMPI` broadcasts nothing at all; and clean shutdown
(`Pipeline::shutdown`) issues exactly `MPI_Finalize` and exits with
code 0. -/
theorem fatal_exits_one_clean_exits_zero (st : Pipeline) (env : List MpiErr)
    (rankVal sizeVal univ iStage : Int) (junk : List Nat) (lev : String) :
    (∀ c, (initializeMPI st env rankVal sizeVal univ).2.2 = .exited c →
      c = 1 ∧ (initializeMPI st env rankVal sizeVal univ).1.getLast? =
        some .finalize) ∧
    (∀ op ∈ (initializeMPI st env rankVal sizeVal univ).1,
      op.isBcast = false) ∧
    (∀ c, (startSlices st env lev).2.2 = .exited c →
      c = 1 ∧ (startSlices st env lev).1.getLast? = some .finalize) ∧
    (∀ c, (invokeShutdown st env junk).2.2 = .exited c →
      c = 1 ∧ (invokeShutdown st env junk).1.getLast? = some .finalize) ∧
    (∀ c, (invokeContinue st env junk).2.2 = .exited c →
      c = 1 ∧ (invokeContinue st env junk).1.getLast? = some .finalize) ∧
    (∀ c, (invokeSyncSlices st env junk).2.2 = .exited c →
      c = 1 ∧ (invokeSyncSlices st env junk).1.getLast? = some .finalize) ∧
    (∀ c, (invokeProcess st env junk iStage).2.2 = .exited c →
      c = 1 ∧ (invokeProcess st env junk iStage).1.getLast? =
        some .finalize) ∧
    shutdown st env = ([.finalize], env, .exited 0) := by
  refine ⟨fun c h => initializeMPI_exit st env rankVal sizeVal univ c h,
    initializeMPI_no_bcast st env rankVal sizeVal univ,
    fun c h => startSlices_exit st env lev c h,
    fun c h => invokeShutdown_exit st env junk c h,
    fun c h => invokeContinue_exit st env junk c h,
    fun c h => invokeSyncSlices_exit st env junk c h,
    fun c h => invokeProcess_exit st env junk iStage c h,
    rfl⟩

/-- C5 witness: with an oracle whose first answer is the failure code 1,
bootstrap exits with code 1 after a final `MPI_Finalize` and no broadcast;
clean shutdown exits with code 0 after exactly `MPI_Finalize`. -/
theorem fatal_exits_one_clean_exits_zero_witness :
    (1 = 1 ∧ (initializeMPI samplePipeline [1] 0 1 4).1.getLast? =
      some .finalize) ∧
    (∀ op ∈ (initializeMPI samplePipeline [1] 0 1 4).1,
      op.isBcast = false) ∧
    shutdown samplePipeline [1] = ([.finalize], [1], .exited 0) := by
  obtain ⟨h1, h2, _, _, _, _, _, h8⟩ :=
    fatal_exits_one_clean_exits_zero samplePipeline [1] 0 1 4 2
      sampleJunk "10"
  exact ⟨h1 1 rfl, h2, h8⟩

/-- C7: for every command the coordinator sends (CONTINUE, SHUTDOWN, SYNC,
PROCESS), the canonical name including its NUL terminator fits strictly
within the fixed command buffer capacity `bufferSize = 256` set by
`Pipeline::configurePipeline`, so the `strcpy` into the buffer stays inside
the buffer (its length is unchanged) and `encode` succeeds rather than
raising a `FramingError`. -/
theorem command_names_fit_buffer (st : Pipeline) (c : Command)
    (junk : List Nat) (hj : junk.length = 256) :
    (strBytes (cmdName c)).length + 1 ≤ (configurePipeline st).bufferSize ∧
    encode c junk = some (strcpyBuf junk (cmdName c)) ∧
    (strcpyBuf junk (cmdName c)).length = junk.length := by
  have hfit : (strBytes (cmdName c)).length + 1 ≤ 256 := by
    cases c <;> decide
  refine ⟨?_, ?_, ?_⟩
  · show (strBytes (cmdName c)).length + 1 ≤ 256
    exact hfit
  · rw [encode, if_pos (by rw [hj]; exact hfit)]
  · exact strcpyBuf_length junk (cmdName c) (by rw [hj]; exact hfit)

/-- C7 witness: the theorem applied to the PROCESS command and a concrete
zeroed 256-byte buffer. -/
theorem command_names_fit_buffer_witness :
    sampleJunk.length = 256 ∧
    ((strBytes (cmdName Command.PROCESS)).length + 1 ≤
        (configurePipeline samplePipeline).bufferSize ∧
      encode Command.PROCESS sampleJunk =
        some (strcpyBuf sampleJunk (cmdName Command.PROCESS)) ∧
      (strcpyBuf sampleJunk (cmdName Command.PROCESS)).length =
        sampleJunk.length) :=
  ⟨rfl, command_names_fit_buffer samplePipeline Command.PROCESS
    sampleJunk rfl⟩

/-- C8 counterexample: the full 256-byte wire payload is NOT a deterministic
function of the command alone, and is not zero/space padded.  Two
`invokeProcess` calls for the same command and the same stage index, with
different prior buffer contents (all bytes 65 versus all bytes 66), put
different 256-byte payloads on the wire; moreover the byte right after the
7-byte name "PROCESS" plus its NUL terminator is 65 — neither zero nor
space — in the first payload. -/
theorem bcast_payload_not_command_function :
    (invokeProcess samplePipeline [] (List.replicate 256 65) 0).1 ≠
      (invokeProcess samplePipeline [] (List.replicate 256 66) 0).1 ∧
    (strcpyBuf (List.replicate 256 65) "PROCESS")[8]? = some 65 := by
  exact ⟨by decide, by decide⟩

/-- C8 amended: every command broadcast sends the fixed-size 256-byte
buffer; its first `name length + 1` bytes are the command's canonical name
followed by the NUL terminator, and the remaining bytes keep whatever was in
the buffer beforehand (they are not zeroed or space-padded), so the payload
is a function of the command together with the prior buffer contents, not of
the command alone. -/
theorem bcast_payload_layout (c : Command) (junk : List Nat)
    (hj : junk.length = 256) :
    (strcpyBuf junk (cmdName c)).take ((strBytes (cmdName c)).length + 1) =
      strBytes (cmdName c) ++ [0] ∧
    (strcpyBuf junk (cmdName c)).drop ((strBytes (cmdName c)).length + 1) =
      junk.drop ((strBytes (cmdName c)).length + 1) ∧
    (strcpyBuf junk (cmdName c)).length = 256 := by
  refine ⟨strcpyBuf_take junk (cmdName c), strcpyBuf_drop junk (cmdName c), ?_⟩
  rw [strcpyBuf_length junk (cmdName c) (by rw [hj]; cases c <;> decide), hj]

/-- C8 amended witness: the layout theorem applied to the PROCESS command
and a concrete zeroed 256-byte buffer. -/
theorem bcast_payload_layout_witness :
    sampleJunk.length = 256 ∧
    ((strcpyBuf sampleJunk (cmdName Command.PROCESS)).take
        ((strBytes (cmdName Command.PROCESS)).length + 1) =
      strBytes (cmdName Command.PROCESS) ++ [0] ∧
    (strcpyBuf sampleJunk (cmdName Command.PROCESS)).drop
        ((strBytes (cmdName Command.PROCESS)).length + 1) =
      sampleJunk.drop ((strBytes (cmdName Command.PROCESS)).length + 1) ∧
    (strcpyBuf sampleJunk (cmdName Command.PROCESS)).length = 256) :=
  ⟨rfl, bcast_payload_layout Command.PROCESS sampleJunk rfl⟩

/-- C9 counterexample: calling the spec's `shutdownFleet` (broadcast
SHUTDOWN via `invokeShutdown`, then release the channel and terminate via
`shutdown`) a second time does NOT fail with an `IllegalStateError`: the
first call already terminated the coordinator process with the clean exit
code 0, so the doubled program behaves exactly like the single call — the
second call never executes, performs no channel I/O, and raises no error of
any kind. -/
theorem shutdownFleet_twice_counterexample :
    runCalls samplePipeline []
        (shutdownFleet sampleJunk ++ shutdownFleet sampleJunk) =
      runCalls samplePipeline [] (shutdownFleet sampleJunk) ∧
    (runCalls samplePipeline []
        (shutdownFleet sampleJunk ++ shutdownFleet sampleJunk)).2.2 =
      .exited 0 :=
  ⟨rfl, rfl⟩

/-- C9 amended: after `shutdownFleet` the coordinator process has exited
with code 0, so any further calls (a second `shutdownFleet` included) are
never executed and perform no channel I/O; the source has no
`IllegalStateError` — termination, not an error, is what prevents re-running
shutdown. -/
theorem shutdownFleet_second_call_never_runs (st : Pipeline)
    (env : List MpiErr) (junk : List Nat) (rest : List Call)
    (h : allSuccess env) :
    runCalls st env (shutdownFleet junk ++ rest) =
      runCalls st env (shutdownFleet junk) ∧
    (runCalls st env (shutdownFleet junk)).2.2 = .exited 0 := by
  cases env with
  | nil => exact ⟨rfl, rfl⟩
  | cons e t =>
    obtain rfl : e = MPI_SUCCESS := h _ (List.mem_cons_self _ _)
    exact ⟨rfl, rfl⟩

/-- C9 amended witness: the theorem applied at a concrete state with a
second `shutdownFleet` as the calls that follow the first. -/
theorem shutdownFleet_second_call_never_runs_witness :
    runCalls samplePipeline []
        (shutdownFleet sampleJunk ++ shutdownFleet sampleJunk) =
      runCalls samplePipeline [] (shutdownFleet sampleJunk) ∧
    (runCalls samplePipeline [] (shutdownFleet sampleJunk)).2.2 =
      .exited 0 :=
  shutdownFleet_second_call_never_runs samplePipeline [] sampleJunk
    (shutdownFleet sampleJunk) allSuccess_nil

end PexHarness
